import Mathlib

/-!
Stats plugin (`plugins/stats/stats.go`)

A shallow embedding of the three methods of `StatsPlugin` that carry the
plugin's behaviour: `sendStat`, `sendEventStats` and `HandleEvent`.

Everything the Go code does to the outside world (dialling the carbon
address, writing to the connection, sending on the error channel, inspecting a
container, spawning the monitor goroutine) is recorded, in program order, as a
list of `Action`s.  Everything the outside world decides (whether a dial or a
write fails, whether somebody receives from the error channel, what the
inspection returns, the current time) is an explicit argument.
-/

namespace InterlockStats

/-! ## Go values -/

/-- Go strings are immutable byte sequences: `len(s)` counts bytes and
`s[:n]` cuts at a byte offset. -/
abbrev GoString := List UInt8

/-- The bytes (UTF-8) of a string literal of the source. -/
def str (s : String) : GoString := s.data.flatMap String.utf8EncodeChar

/-- Go slice expression `s[:n]` on a string: the first `n` bytes, and a
run-time panic (`none`) when `n > len(s)`. -/
def sliceTo (s : GoString) (n : Nat) : Option GoString :=
  if n ≤ s.length then some (s.take n) else none

/-- A non-nil Go `error`, identified by its message. -/
structure GoError where
  msg : GoString
deriving DecidableEq, Repr

/-- A `time.Time`, observed only through `Unix()` (seconds since the epoch, an `int64`). -/
structure Time where
  unix : Int
deriving DecidableEq, Repr

/-- Decimal digits of an unsigned integer, as `%v` and `%d` print them. -/
def formatUint (n : Nat) : GoString := (Nat.toDigits 10 n).map (fun c => c.toNat.toUInt8)

/-- Decimal rendering of a signed integer by `%v` and `%d`: a minus sign for
negative numbers, no padding, no plus sign. -/
def formatInt : Int → GoString
  | Int.ofNat n => formatUint n
  | Int.negSucc n => str "-" ++ formatUint (n + 1)

/-! ## Data model -/

/-- Modelled from the spec: the declaration of `PluginConfig` is not in
`stats.go`; the fields are the three that `loadPluginConfig` fills in.
The compiled regular expression is represented by its `MatchString`. -/
structure PluginConfig where
  CarbonAddress : GoString
  StatsPrefix : GoString
  ImageNameFilter : GoString → Bool

/-- The receiver of the methods.  The docker client is not a field here: its
answers are arguments of the methods that call it. -/
structure StatsPlugin where
  pluginConfig : PluginConfig

/-- The fields of `dockerclient.CpuUsage` read by the plugin (`uint64`). -/
structure CpuUsage where
  TotalUsage : Nat
  UsageInKernelmode : Nat
  UsageInUsermode : Nat
deriving DecidableEq, Repr

/-- The part of `dockerclient.CpuStats` read by the plugin. -/
structure CpuStats where
  CpuUsage : CpuUsage
deriving DecidableEq, Repr

/-- The fields of `dockerclient.MemoryStats` read by the plugin (`uint64`). -/
structure MemoryStats where
  Usage : Nat
  MaxUsage : Nat
  Failcnt : Nat
  Limit : Nat
deriving DecidableEq, Repr

/-- The fields of `dockerclient.NetworkStats` read by the plugin (`uint64`). -/
structure NetworkStats where
  RxBytes : Nat
  RxPackets : Nat
  RxErrors : Nat
  RxDropped : Nat
  TxBytes : Nat
  TxPackets : Nat
  TxErrors : Nat
  TxDropped : Nat
deriving DecidableEq, Repr

/-- One snapshot, `dockerclient.Stats` (a non-nil pointer in the source). -/
structure Stats where
  CpuStats : CpuStats
  MemoryStats : MemoryStats
  Network : NetworkStats
deriving DecidableEq, Repr

/-- The fields of `dockerclient.Event` read by `HandleEvent`. -/
structure Event where
  Id : GoString
  Status : GoString
deriving DecidableEq, Repr

/-- The part of `dockerclient.ContainerConfig` read by `HandleEvent`. -/
structure ContainerConfig where
  Image : GoString
deriving DecidableEq, Repr

/-- The fields of `dockerclient.ContainerInfo` read by `HandleEvent`
(`Config` is taken to be non-nil). -/
structure ContainerInfo where
  Id : GoString
  Image : GoString
  Config : ContainerConfig
deriving DecidableEq, Repr

/-! ## The outside world -/

/-- What the network does during one call of `sendStat`: the error of
`net.Dial` (if any) and the error of the write on the connection (if any). -/
structure NetOutcome where
  dialErr : Option GoError
  writeErr : Option GoError
deriving DecidableEq, Repr

/-- Levels of `plugins.Log` used in the file. -/
inductive LogLevel where
  | debug
  | error
deriving DecidableEq, Repr

/-- The callback handed to `handleStats`. -/
inductive Callback where
  | sendEventStats
deriving DecidableEq, Repr

/-- The channels of the file. -/
inductive ChanRef where
  | errorChan
deriving DecidableEq, Repr

/-- Observable steps, in program order.  `sendStatCall` marks the entry into
`sendStat` with its arguments; `connWrite` carries the bytes handed to the one
`Write` and what that `Write` returned; the text of log messages is not
recorded. -/
inductive Action where
  | sendStatCall (path : GoString) (value : Int) (t : Time)
  | dial (address : GoString)
  | log (level : LogLevel)
  | connWrite (data : GoString) (result : Option GoError)
  | connClose
  | chanSend (err : GoError)
  | chanBlocked (err : GoError)
  | inspect (id : GoString)
  | println (line : GoString)
  | goHandleStats (id : GoString) (cb : Callback) (ec : ChanRef)
deriving DecidableEq, Repr

/-- How a call ended: it returned, it panicked, or it is parked for ever on a
channel send that nobody receives. -/
inductive Exit where
  | returned
  | panicked
  | blocked
deriving DecidableEq, Repr

/-! ## `sendStat` -/

/-- Method `sendStat(path, value, t)`.  Dial; on failure return the dial error.
Otherwise format `"%s %v %d"`, log it, write it followed by a newline with one
`Fprintf` (one `Write` on the connection, whose result is discarded), close the
connection (deferred) and return nil. -/
def sendStat (p : StatsPlugin) (net : NetOutcome) (path : GoString) (value : Int) (t : Time) :
    Option GoError × List Action :=
  match net.dialErr with
  | some err =>
    (some err, [Action.sendStatCall path value t, Action.dial p.pluginConfig.CarbonAddress])
  | none =>
    let timestamp := t.unix
    let v := path ++ str " " ++ formatInt value ++ str " " ++ formatInt timestamp
    (none, [Action.sendStatCall path value t, Action.dial p.pluginConfig.CarbonAddress,
            Action.log LogLevel.debug, Action.connWrite (v ++ str "\n") net.writeErr,
            Action.connClose])

/-! ## `sendEventStats` -/

/-- The local type `containerStat` of `sendEventStats`. -/
structure containerStat where
  Key : GoString
  Value : Int
deriving DecidableEq, Repr

/-- The slice literal `statData` of `sendEventStats`. -/
def statData (stats : Stats) : List containerStat :=
  [ { Key := str "cpu.usage.totalUsage", Value := stats.CpuStats.CpuUsage.TotalUsage },
    { Key := str "cpu.usage.usageInKernelmode", Value := stats.CpuStats.CpuUsage.UsageInKernelmode },
    { Key := str "cpu.usage.usageInUsermode", Value := stats.CpuStats.CpuUsage.UsageInUsermode },
    { Key := str "memory.stats.usage", Value := stats.MemoryStats.Usage },
    { Key := str "memory.stats.maxUsage", Value := stats.MemoryStats.MaxUsage },
    { Key := str "memory.stats.failcnt", Value := stats.MemoryStats.Failcnt },
    { Key := str "memory.stats.limit", Value := stats.MemoryStats.Limit },
    { Key := str "network.rxBytes", Value := stats.Network.RxBytes },
    { Key := str "network.rxPackets", Value := stats.Network.RxPackets },
    { Key := str "network.rxErrors", Value := stats.Network.RxErrors },
    { Key := str "network.rxDropped", Value := stats.Network.RxDropped },
    { Key := str "network.txBytes", Value := stats.Network.TxBytes },
    { Key := str "network.txPackets", Value := stats.Network.TxPackets },
    { Key := str "network.txErrors", Value := stats.Network.TxErrors },
    { Key := str "network.txDropped", Value := stats.Network.TxDropped } ]

/-- The loop `for _, s := range statData` of `sendEventStats`, from the
`i`-th iteration on.  `nets k` is what the network does during the `k`-th
iteration; `ec` is the number of sends on the error channel that can still
complete (receives still to come from other goroutines, plus free buffer
slots; `errorChan` is made without a buffer).  Each iteration logs twice,
calls `sendStat` with the path `statBasePath + "." + s.Key` and, when that
returns an error, executes `ec <- err`: the send completes when one can, and
parks the goroutine for ever otherwise. -/
def rangeStatData (p : StatsPlugin) (statBasePath : GoString) (timestamp : Time)
    (nets : Nat → NetOutcome) : List containerStat → Nat → Nat → Exit × List Action
  | [], _, _ => (Exit.returned, [])
  | s :: rest, i, ec =>
    let m := statBasePath ++ str "." ++ s.Key
    let r := sendStat p (nets i) m s.Value timestamp
    let head := [Action.log LogLevel.debug, Action.log LogLevel.debug] ++ r.2
    match r.1 with
    | none =>
      let k := rangeStatData p statBasePath timestamp nets rest (i + 1) ec
      (k.1, head ++ k.2)
    | some err =>
      match ec with
      | 0 => (Exit.blocked, head ++ [Action.chanBlocked err])
      | ec + 1 =>
        let k := rangeStatData p statBasePath timestamp nets rest (i + 1) ec
        (k.1, head ++ [Action.chanSend err] ++ k.2)

/-- Method `sendEventStats(id, stats, ec, args...)`, called at time `now`
(the value of `time.Now()` taken once, before the loop).  The id is cut to
12 bytes when it is longer; `nets` and `ec` are as in `rangeStatData`. -/
def sendEventStats (p : StatsPlugin) (id : GoString) (stats : Stats) (now : Time)
    (nets : Nat → NetOutcome) (ec : Nat) : Exit × List Action :=
  match (if id.length > 12 then sliceTo id 12 else some id) with
  | none => (Exit.panicked, [])
  | some id =>
    let statBasePath := p.pluginConfig.StatsPrefix ++ str ".containers." ++ id
    let timestamp := now
    rangeStatData p statBasePath timestamp nets (statData stats) 0 ec

/-! ## `HandleEvent` -/

/-- Result of `HandleEvent`: the returned `error` (nil is `none`), or a panic. -/
inductive Outcome where
  | returned (err : Option GoError)
  | panicked
deriving DecidableEq, Repr

/-- Method `HandleEvent(event)`, called at time `now`.  `net` is what the
network does during the counter publish and `inspect` is
`p.client.InspectContainer`.  The goroutine started by `go p.handleStats(...)`
runs apart; its start is the action `goHandleStats`. -/
def HandleEvent (p : StatsPlugin) (now : Time) (net : NetOutcome)
    (inspect : GoString → Except GoError ContainerInfo) (event : Event) :
    Outcome × List Action :=
  let t := now
  let r := sendStat p net (p.pluginConfig.StatsPrefix ++ str ".all.events") 1 t
  let a1 := r.2 ++ (match r.1 with
    | some _ => [Action.log LogLevel.error]
    | none => [])
  if event.Status = str "start" then
    match inspect event.Id with
    | Except.error err => (Outcome.returned (some err), a1 ++ [Action.inspect event.Id])
    | Except.ok c =>
      let a2 := a1 ++ [Action.inspect event.Id, Action.println c.Config.Image]
      if p.pluginConfig.ImageNameFilter c.Config.Image then
        match sliceTo c.Id 12 with
        | none => (Outcome.panicked, a2)
        | some _ =>
          (Outcome.returned none,
            a2 ++ [Action.log LogLevel.debug,
                   Action.goHandleStats event.Id Callback.sendEventStats ChanRef.errorChan])
      else (Outcome.returned none, a2)
  else (Outcome.returned none, a1)

/-! ## Reading a list of actions -/

/-- The arguments of a `sendStat` call, when the action is one. -/
def Action.asPublish : Action → Option (GoString × Int × Time)
  | Action.sendStatCall path value t => some (path, value, t)
  | _ => none

/-- The bytes of a `Write` on a connection, when the action is one. -/
def Action.asWrite : Action → Option GoString
  | Action.connWrite data _ => some data
  | _ => none

/-- The error of a completed channel send, when the action is one. -/
def Action.asSend : Action → Option GoError
  | Action.chanSend err => some err
  | _ => none

/-- The container id of a started monitor goroutine, when the action is one. -/
def Action.asMonitor : Action → Option GoString
  | Action.goHandleStats id _ _ => some id
  | _ => none

/-- The container id of an inspection, when the action is one. -/
def Action.asInspect : Action → Option GoString
  | Action.inspect id => some id
  | _ => none

/-- The `(path, value, time)` of every `sendStat` call, in order. -/
def publishAttempts (as : List Action) : List (GoString × Int × Time) :=
  as.filterMap Action.asPublish

/-- The data of every `Write` issued on a connection, in order. -/
def connWrites (as : List Action) : List GoString := as.filterMap Action.asWrite

/-- The errors whose send on the error channel completed, in order. -/
def chanSends (as : List Action) : List GoError := as.filterMap Action.asSend

/-- The container ids for which a monitor goroutine was started, in order. -/
def monitorStarts (as : List Action) : List GoString := as.filterMap Action.asMonitor

/-- The container ids handed to `InspectContainer`, in order. -/
def inspections (as : List Action) : List GoString := as.filterMap Action.asInspect

/-! ## The specification's vocabulary -/

/-- The short id in the words of the specification: the first 12 bytes of an
id longer than 12, the id itself otherwise. -/
def specShortId (id : GoString) : GoString := if 12 < id.length then id.take 12 else id

/-- The metric path in the words of the specification:
`prefix + ".containers." + short_id + "." + field_path`. -/
def specPath (statsPrefix id fieldPath : GoString) : GoString :=
  statsPrefix ++ str ".containers." ++ specShortId id ++ str "." ++ fieldPath

/-- The point published for one entry of `statData`: path, value, timestamp. -/
def specPoint (statsPrefix id : GoString) (ts : Time) (s : containerStat) :
    GoString × Int × Time :=
  (specPath statsPrefix id s.Key, s.Value, ts)

/-- The dial errors of iterations `i`, ..., `i + n - 1`, in order. -/
def dialErrs (nets : Nat → NetOutcome) (i n : Nat) : List GoError :=
  (List.range' i n).filterMap (fun k => (nets k).dialErr)

/-- The actions of the first statement of `HandleEvent`: the counter publish
`sendStat(prefix + ".all.events", 1, &t)` and, when it fails, the error log. -/
def counterPublish (p : StatsPlugin) (now : Time) (net : NetOutcome) : List Action :=
  (sendStat p net (p.pluginConfig.StatsPrefix ++ str ".all.events") 1 now).2 ++
    (match (sendStat p net (p.pluginConfig.StatsPrefix ++ str ".all.events") 1 now).1 with
     | some _ => [Action.log LogLevel.error]
     | none => [])

/-! ## Sample inputs -/

/-- A plugin with the default prefix and the default filter `.*`. -/
def samplePlugin : StatsPlugin :=
  { pluginConfig :=
      { CarbonAddress := str "carbon:2003", StatsPrefix := str "docker.stats",
        ImageNameFilter := fun _ => true } }

/-- A snapshot with fifteen different counters. -/
def sampleStats : Stats :=
  { CpuStats := { CpuUsage := { TotalUsage := 100, UsageInKernelmode := 40, UsageInUsermode := 60 } },
    MemoryStats := { Usage := 2048, MaxUsage := 4096, Failcnt := 3, Limit := 8192 },
    Network := { RxBytes := 11, RxPackets := 12, RxErrors := 13, RxDropped := 14,
                 TxBytes := 21, TxPackets := 22, TxErrors := 23, TxDropped := 24 } }

/-- A network on which dial and write succeed. -/
def netUp : NetOutcome := { dialErr := none, writeErr := none }

/-- A network on which the dial is refused. -/
def netDown : NetOutcome :=
  { dialErr := some { msg := str "connection refused" }, writeErr := none }

/-- A network on which the dial succeeds and the write fails. -/
def netBrokenPipe : NetOutcome :=
  { dialErr := none, writeErr := some { msg := str "broken pipe" } }

/-- A network on which the `k`-th dial is refused, with an error naming `k`. -/
def netRefusedAt (k : Nat) : NetOutcome :=
  { dialErr := some { msg := str "dial refused at point " ++ formatUint k }, writeErr := none }

/-- Fifteen dials of which the fourth and the tenth are refused. -/
def sampleNets (k : Nat) : NetOutcome := if k = 3 ∨ k = 9 then netRefusedAt k else netUp

/-- Fifteen dials of which only the fourth is refused. -/
def oneRefusal (k : Nat) : NetOutcome := if k = 3 then netRefusedAt k else netUp

/-- A time of call. -/
def sampleTime : Time := { unix := 1700000000 }

/-- An inspection that answers with a container whose `Id` is the three bytes
`abc`, running image `nginx`. -/
def inspectShortId (_ : GoString) : Except GoError ContainerInfo :=
  Except.ok { Id := str "abc", Image := str "sha256:0", Config := { Image := str "nginx" } }

/-- An inspection that answers with the id it was asked about, running image `nginx`. -/
def inspectEcho (id : GoString) : Except GoError ContainerInfo :=
  Except.ok { Id := id, Image := str "sha256:0", Config := { Image := str "nginx" } }

/-- An inspection that fails. -/
def inspectFails (_ : GoString) : Except GoError ContainerInfo :=
  Except.error { msg := str "no such container" }

/-- A plugin whose filter accepts only the image `redis`. -/
def redisOnly : StatsPlugin :=
  { pluginConfig :=
      { CarbonAddress := str "carbon:2003", StatsPrefix := str "docker.stats",
        ImageNameFilter := fun image => decide (image = str "redis") } }

/-! ## Lemmas on decimal formatting -/

theorem digitChar_ascii (d : Nat) (h : d < 10) : (Nat.digitChar d).toNat < 128 := by
  interval_cases d <;> decide

theorem toDigitsCore_ascii (fuel : Nat) : ∀ (n : Nat) (ds : List Char),
    (∀ c ∈ ds, c.toNat < 128) → ∀ c ∈ Nat.toDigitsCore 10 fuel n ds, c.toNat < 128 := by
  induction fuel with
  | zero =>
    intro n ds h c hc
    exact h c (by simpa [Nat.toDigitsCore] using hc)
  | succ fuel ih =>
    intro n ds h c hc
    have hd : (Nat.digitChar (n % 10)).toNat < 128 :=
      digitChar_ascii _ (Nat.mod_lt _ (by decide))
    have hds : ∀ c ∈ Nat.digitChar (n % 10) :: ds, c.toNat < 128 := by
      intro c hc
      rcases List.mem_cons.mp hc with h1 | h1
      · rw [h1]
        exact hd
      · exact h c h1
    rw [Nat.toDigitsCore] at hc
    by_cases hz : n / 10 = 0
    · simp only [hz, if_true] at hc
      exact hds c hc
    · simp only [hz, if_false] at hc
      exact ih _ _ hds c hc

theorem utf8EncodeChar_ascii (c : Char) (h : c.toNat < 128) :
    String.utf8EncodeChar c = [c.toNat.toUInt8] := by
  have h2 : c.val.toNat ≤ 127 := by
    have : c.toNat = c.val.toNat := rfl
    omega
  have h3 : c.val ≤ 127 := h2
  simp only [String.utf8EncodeChar, h3, if_true]
  rfl

theorem flatMap_ascii (l : List Char) (h : ∀ c ∈ l, c.toNat < 128) :
    l.flatMap String.utf8EncodeChar = l.map (fun c => c.toNat.toUInt8) := by
  induction l with
  | nil => rfl
  | cons a t ih =>
    rw [List.flatMap_cons, List.map_cons, utf8EncodeChar_ascii a (h a (List.mem_cons_self _ _)),
      ih (fun c hc => h c (List.mem_cons_of_mem _ hc))]
    rfl

/-- The digits written are the bytes of the usual decimal numeral. -/
theorem formatUint_eq_toString (n : Nat) : formatUint n = str (toString n) := by
  have h : (toString n).data = Nat.toDigits 10 n := rfl
  unfold formatUint str
  rw [h, flatMap_ascii]
  exact toDigitsCore_ascii _ _ _ (by simp)

/-- The bytes written for an integer are those of its usual signed decimal numeral. -/
theorem formatInt_eq_toString (i : Int) : formatInt i = str (toString i) := by
  cases i with
  | ofNat n => exact formatUint_eq_toString n
  | negSucc n =>
    have h : toString (Int.negSucc n) = "-" ++ toString (n + 1) := rfl
    rw [h]
    show str "-" ++ formatUint (n + 1) = _
    rw [formatUint_eq_toString]
    simp [str, String.data_append]

/-! ## Lemmas on `sendStat` and on the loop -/

theorem publishAttempts_append (a b : List Action) :
    publishAttempts (a ++ b) = publishAttempts a ++ publishAttempts b := by
  simp [publishAttempts]

theorem chanSends_append (a b : List Action) :
    chanSends (a ++ b) = chanSends a ++ chanSends b := by
  simp [chanSends]

theorem sendStat_fst (p : StatsPlugin) (net : NetOutcome) (path : GoString) (value : Int)
    (t : Time) : (sendStat p net path value t).1 = net.dialErr := by
  unfold sendStat
  cases net.dialErr <;> rfl

theorem publishAttempts_sendStat (p : StatsPlugin) (net : NetOutcome) (path : GoString)
    (value : Int) (t : Time) :
    publishAttempts (sendStat p net path value t).2 = [(path, value, t)] := by
  unfold sendStat
  cases net.dialErr <;> simp [publishAttempts, Action.asPublish]

theorem chanSends_sendStat (p : StatsPlugin) (net : NetOutcome) (path : GoString)
    (value : Int) (t : Time) : chanSends (sendStat p net path value t).2 = [] := by
  unfold sendStat
  cases net.dialErr <;> simp [chanSends, Action.asSend]

theorem monitorStarts_sendStat (p : StatsPlugin) (net : NetOutcome) (path : GoString)
    (value : Int) (t : Time) : monitorStarts (sendStat p net path value t).2 = [] := by
  unfold sendStat
  cases net.dialErr <;> simp [monitorStarts, Action.asMonitor]

theorem inspections_sendStat (p : StatsPlugin) (net : NetOutcome) (path : GoString)
    (value : Int) (t : Time) : inspections (sendStat p net path value t).2 = [] := by
  unfold sendStat
  cases net.dialErr <;> simp [inspections, Action.asInspect]

/-- One unfolding of the loop. -/
theorem rangeStatData_cons (p : StatsPlugin) (base : GoString) (ts : Time)
    (nets : Nat → NetOutcome) (s : containerStat) (rest : List containerStat) (i ec : Nat) :
    rangeStatData p base ts nets (s :: rest) i ec =
      (match (nets i).dialErr with
       | none =>
         ((rangeStatData p base ts nets rest (i + 1) ec).1,
          [Action.log LogLevel.debug, Action.log LogLevel.debug]
            ++ (sendStat p (nets i) (base ++ str "." ++ s.Key) s.Value ts).2
            ++ (rangeStatData p base ts nets rest (i + 1) ec).2)
       | some err =>
         match ec with
         | 0 =>
           (Exit.blocked,
            [Action.log LogLevel.debug, Action.log LogLevel.debug]
              ++ (sendStat p (nets i) (base ++ str "." ++ s.Key) s.Value ts).2
              ++ [Action.chanBlocked err])
         | n + 1 =>
           ((rangeStatData p base ts nets rest (i + 1) n).1,
            [Action.log LogLevel.debug, Action.log LogLevel.debug]
              ++ (sendStat p (nets i) (base ++ str "." ++ s.Key) s.Value ts).2
              ++ [Action.chanSend err]
              ++ (rangeStatData p base ts nets rest (i + 1) n).2)) := by
  have h := sendStat_fst p (nets i) (base ++ str "." ++ s.Key) s.Value ts
  cases hd : (nets i).dialErr with
  | none =>
    rw [hd] at h
    simp only [rangeStatData]
    rw [h]
  | some err =>
    rw [hd] at h
    cases ec with
    | zero =>
      simp only [rangeStatData]
      rw [h]
    | succ n =>
      simp only [rangeStatData]
      rw [h]

/-- The loop never calls `sendStat` out of order: what it has published is
an initial segment of the list it ranges over. -/
theorem rangeStatData_attempts_initial (p : StatsPlugin) (base : GoString) (ts : Time)
    (nets : Nat → NetOutcome) (l : List containerStat) :
    ∀ i ec : Nat, publishAttempts (rangeStatData p base ts nets l i ec).2 <+:
      l.map (fun s => (base ++ str "." ++ s.Key, s.Value, ts)) := by
  induction l with
  | nil =>
    intro i ec
    simp [rangeStatData, publishAttempts]
  | cons s rest ih =>
    intro i ec
    rw [rangeStatData_cons]
    cases hd : (nets i).dialErr with
    | none =>
      simp only [publishAttempts_append, publishAttempts_sendStat, List.map_cons]
      simpa [publishAttempts, Action.asPublish, List.prefix_cons_inj] using ih (i + 1) ec
    | some err =>
      cases ec with
      | zero =>
        simp only [publishAttempts_append, publishAttempts_sendStat, List.map_cons]
        simp [publishAttempts, Action.asPublish, List.prefix_cons_inj]
      | succ n =>
        simp only [publishAttempts_append, publishAttempts_sendStat, List.map_cons]
        simpa [publishAttempts, Action.asPublish, List.prefix_cons_inj] using ih (i + 1) n

/-- The loop does not panic. -/
theorem rangeStatData_not_panicked (p : StatsPlugin) (base : GoString) (ts : Time)
    (nets : Nat → NetOutcome) (l : List containerStat) :
    ∀ i ec : Nat, (rangeStatData p base ts nets l i ec).1 ≠ Exit.panicked := by
  induction l with
  | nil =>
    intro i ec
    simp [rangeStatData]
  | cons s rest ih =>
    intro i ec
    rw [rangeStatData_cons]
    cases hd : (nets i).dialErr with
    | none => exact ih (i + 1) ec
    | some err =>
      cases ec with
      | zero => simp
      | succ n => exact ih (i + 1) n

theorem dialErrs_succ (nets : Nat → NetOutcome) (i n : Nat) :
    dialErrs nets i (n + 1) =
      (match (nets i).dialErr with
       | none => dialErrs nets (i + 1) n
       | some err => err :: dialErrs nets (i + 1) n) := by
  unfold dialErrs
  rw [List.range'_succ, List.filterMap_cons]
  cases (nets i).dialErr <;> rfl

/-- The loop runs to its end exactly when every error it has to send finds a
receiver. -/
theorem rangeStatData_returned_iff (p : StatsPlugin) (base : GoString) (ts : Time)
    (nets : Nat → NetOutcome) (l : List containerStat) :
    ∀ i ec : Nat, (rangeStatData p base ts nets l i ec).1 = Exit.returned ↔
      (dialErrs nets i l.length).length ≤ ec := by
  induction l with
  | nil =>
    intro i ec
    simp [rangeStatData, dialErrs]
  | cons s rest ih =>
    intro i ec
    rw [rangeStatData_cons, List.length_cons, dialErrs_succ]
    cases hd : (nets i).dialErr with
    | none => exact ih (i + 1) ec
    | some err =>
      cases ec with
      | zero => simp
      | succ n =>
        simp only [List.length_cons, Nat.add_le_add_iff_right]
        exact ih (i + 1) n

/-- A loop that runs to its end has published every entry and has sent every
dial error, in order. -/
theorem rangeStatData_returned (p : StatsPlugin) (base : GoString) (ts : Time)
    (nets : Nat → NetOutcome) (l : List containerStat) :
    ∀ i ec : Nat, (rangeStatData p base ts nets l i ec).1 = Exit.returned →
      publishAttempts (rangeStatData p base ts nets l i ec).2 =
          l.map (fun s => (base ++ str "." ++ s.Key, s.Value, ts))
        ∧ chanSends (rangeStatData p base ts nets l i ec).2 = dialErrs nets i l.length := by
  induction l with
  | nil =>
    intro i ec _
    simp [rangeStatData, publishAttempts, chanSends, dialErrs]
  | cons s rest ih =>
    intro i ec
    rw [rangeStatData_cons, List.length_cons, dialErrs_succ]
    cases hd : (nets i).dialErr with
    | none =>
      intro h
      have h2 := ih (i + 1) ec h
      simp only [publishAttempts_append, publishAttempts_sendStat, chanSends_append,
        chanSends_sendStat, List.map_cons]
      simpa [publishAttempts, chanSends, Action.asPublish, Action.asSend] using h2
    | some err =>
      cases ec with
      | zero => simp
      | succ n =>
        intro h
        have h2 := ih (i + 1) n h
        simp only [publishAttempts_append, publishAttempts_sendStat, chanSends_append,
          chanSends_sendStat, List.map_cons]
        simpa [publishAttempts, chanSends, Action.asPublish, Action.asSend] using h2

/-- A loop that meets, at offset `j`, a refused dial whose error no send can
deliver (the errors before it have used up the channel) parks there: the
entries up to that one have been published, the earlier errors have been sent,
and the last thing the goroutine does is the send that never completes. -/
theorem rangeStatData_blocked (p : StatsPlugin) (base : GoString) (ts : Time)
    (nets : Nat → NetOutcome) (l : List containerStat) :
    ∀ (i ec j : Nat) (err : GoError), j < l.length → (nets (i + j)).dialErr = some err →
      (dialErrs nets i j).length = ec →
      (rangeStatData p base ts nets l i ec).1 = Exit.blocked
      ∧ publishAttempts (rangeStatData p base ts nets l i ec).2 =
          (l.map (fun s => (base ++ str "." ++ s.Key, s.Value, ts))).take (j + 1)
      ∧ chanSends (rangeStatData p base ts nets l i ec).2 = dialErrs nets i j
      ∧ ∃ before, (rangeStatData p base ts nets l i ec).2 =
          before ++ [Action.chanBlocked err] := by
  induction l with
  | nil =>
    intro i ec j err hj
    simp at hj
  | cons s rest ih =>
    intro i ec j err hj hd hlen
    rw [rangeStatData_cons]
    cases j with
    | zero =>
      have h0 : dialErrs nets i 0 = [] := by simp [dialErrs]
      rw [h0] at hlen
      have hec : ec = 0 := hlen.symm
      subst hec
      rw [Nat.add_zero] at hd
      rw [hd, h0]
      refine ⟨rfl, ?_, ?_, ⟨_, rfl⟩⟩
      · simp only [publishAttempts_append, publishAttempts_sendStat]
        simp [publishAttempts, Action.asPublish]
      · simp only [chanSends_append, chanSends_sendStat]
        simp [chanSends, Action.asSend]
    | succ j =>
      have hj2 : j < rest.length := by simpa using hj
      have hidx : i + (j + 1) = i + 1 + j := by omega
      rw [hidx] at hd
      rw [dialErrs_succ] at hlen ⊢
      cases hdi : (nets i).dialErr with
      | none =>
        rw [hdi] at hlen
        obtain ⟨h1, h2, h3, before, h4⟩ := ih (i + 1) ec j err hj2 hd hlen
        refine ⟨h1, ?_, ?_, ⟨[Action.log LogLevel.debug, Action.log LogLevel.debug]
          ++ (sendStat p (nets i) (base ++ str "." ++ s.Key) s.Value ts).2 ++ before, ?_⟩⟩
        · simp only [publishAttempts_append, publishAttempts_sendStat, h2]
          simp [publishAttempts, Action.asPublish]
        · simp only [chanSends_append, chanSends_sendStat, h3]
          simp [chanSends, Action.asSend]
        · simp only [h4, List.append_assoc]
      | some e =>
        rw [hdi] at hlen
        cases ec with
        | zero => simp at hlen
        | succ m =>
          have hlen2 : (dialErrs nets (i + 1) j).length = m := by simpa using hlen
          obtain ⟨h1, h2, h3, before, h4⟩ := ih (i + 1) m j err hj2 hd hlen2
          refine ⟨h1, ?_, ?_, ⟨[Action.log LogLevel.debug, Action.log LogLevel.debug]
            ++ (sendStat p (nets i) (base ++ str "." ++ s.Key) s.Value ts).2
            ++ [Action.chanSend e] ++ before, ?_⟩⟩
          · simp only [publishAttempts_append, publishAttempts_sendStat, h2]
            simp [publishAttempts, Action.asPublish]
          · simp only [chanSends_append, chanSends_sendStat, h3]
            simp [chanSends, Action.asSend]
          · simp only [h4, List.append_assoc]

/-- When there are more refused dials than sends that can complete, there is a
point at which the loop parks. -/
theorem exists_blocking_point (nets : Nat → NetOutcome) (n : Nat) :
    ∀ (i ec : Nat), ec < (dialErrs nets i n).length →
      ∃ (j : Nat) (err : GoError), j < n ∧ (nets (i + j)).dialErr = some err
        ∧ (dialErrs nets i j).length = ec := by
  induction n with
  | zero =>
    intro i ec h
    simp [dialErrs] at h
  | succ n ih =>
    intro i ec h
    rw [dialErrs_succ] at h
    cases hdi : (nets i).dialErr with
    | none =>
      rw [hdi] at h
      obtain ⟨j, err, hj, hd, hl⟩ := ih (i + 1) ec h
      refine ⟨j + 1, err, by omega, ?_, ?_⟩
      · have hidx : i + (j + 1) = i + 1 + j := by omega
        rw [hidx]
        exact hd
      · rw [dialErrs_succ, hdi]
        exact hl
    | some e =>
      rw [hdi] at h
      cases ec with
      | zero =>
        exact ⟨0, e, by omega, by simpa using hdi, by simp [dialErrs]⟩
      | succ m =>
        have h2 : m < (dialErrs nets (i + 1) n).length := by simpa using h
        obtain ⟨j, err, hj, hd, hl⟩ := ih (i + 1) m h2
        refine ⟨j + 1, err, by omega, ?_, ?_⟩
        · have hidx : i + (j + 1) = i + 1 + j := by omega
          rw [hidx]
          exact hd
        · rw [dialErrs_succ, hdi]
          simpa using hl

/-- The guarded slice at the head of `sendEventStats` never panics and yields
the short id of the specification. -/
theorem guarded_slice (id : GoString) :
    (if id.length > 12 then sliceTo id 12 else some id) = some (specShortId id) := by
  unfold sliceTo specShortId
  by_cases h : id.length > 12
  · have h2 : 12 ≤ id.length := Nat.le_of_lt h
    have h3 : 12 < id.length := h
    simp [h2, h3]
  · have h3 : ¬ 12 < id.length := h
    simp [h3]

/-- The method is the loop over `statData`, on the base path built from the
short id. -/
theorem sendEventStats_eq (p : StatsPlugin) (id : GoString) (stats : Stats) (now : Time)
    (nets : Nat → NetOutcome) (ec : Nat) :
    sendEventStats p id stats now nets ec =
      rangeStatData p (p.pluginConfig.StatsPrefix ++ str ".containers." ++ specShortId id)
        now nets (statData stats) 0 ec := by
  unfold sendEventStats
  rw [guarded_slice]

theorem monitorStarts_append (a b : List Action) :
    monitorStarts (a ++ b) = monitorStarts a ++ monitorStarts b := by
  simp [monitorStarts]

theorem inspections_append (a b : List Action) :
    inspections (a ++ b) = inspections a ++ inspections b := by
  simp [inspections]

theorem publishAttempts_counterPublish (p : StatsPlugin) (now : Time) (net : NetOutcome) :
    publishAttempts (counterPublish p now net) =
      [(p.pluginConfig.StatsPrefix ++ str ".all.events", 1, now)] := by
  unfold counterPublish
  rw [publishAttempts_append, publishAttempts_sendStat]
  cases (sendStat p net (p.pluginConfig.StatsPrefix ++ str ".all.events") 1 now).1 <;>
    simp [publishAttempts, Action.asPublish]

theorem monitorStarts_counterPublish (p : StatsPlugin) (now : Time) (net : NetOutcome) :
    monitorStarts (counterPublish p now net) = [] := by
  unfold counterPublish
  rw [monitorStarts_append, monitorStarts_sendStat]
  cases (sendStat p net (p.pluginConfig.StatsPrefix ++ str ".all.events") 1 now).1 <;>
    simp [monitorStarts, Action.asMonitor]

theorem inspections_counterPublish (p : StatsPlugin) (now : Time) (net : NetOutcome) :
    inspections (counterPublish p now net) = [] := by
  unfold counterPublish
  rw [inspections_append, inspections_sendStat]
  cases (sendStat p net (p.pluginConfig.StatsPrefix ++ str ".all.events") 1 now).1 <;>
    simp [inspections, Action.asInspect]

/-- The in-bounds condition of `c.Id[:12]`. -/
theorem sliceTo_isSome (s : GoString) (n : Nat) : (sliceTo s n).isSome = true ↔ n ≤ s.length := by
  unfold sliceTo
  by_cases h : n ≤ s.length <;> simp [h]

/-- The five paths through `HandleEvent`. -/
theorem HandleEvent_cases (p : StatsPlugin) (now : Time) (net : NetOutcome)
    (inspect : GoString → Except GoError ContainerInfo) (event : Event) :
    (event.Status ≠ str "start" ∧
        HandleEvent p now net inspect event = (Outcome.returned none, counterPublish p now net))
    ∨ (∃ err, event.Status = str "start" ∧ inspect event.Id = Except.error err ∧
        HandleEvent p now net inspect event =
          (Outcome.returned (some err), counterPublish p now net ++ [Action.inspect event.Id]))
    ∨ (∃ c, event.Status = str "start" ∧ inspect event.Id = Except.ok c ∧
        p.pluginConfig.ImageNameFilter c.Config.Image = false ∧
        HandleEvent p now net inspect event =
          (Outcome.returned none,
            counterPublish p now net ++ [Action.inspect event.Id, Action.println c.Config.Image]))
    ∨ (∃ c, event.Status = str "start" ∧ inspect event.Id = Except.ok c ∧
        p.pluginConfig.ImageNameFilter c.Config.Image = true ∧ c.Id.length < 12 ∧
        HandleEvent p now net inspect event =
          (Outcome.panicked,
            counterPublish p now net ++ [Action.inspect event.Id, Action.println c.Config.Image]))
    ∨ (∃ c, event.Status = str "start" ∧ inspect event.Id = Except.ok c ∧
        p.pluginConfig.ImageNameFilter c.Config.Image = true ∧ 12 ≤ c.Id.length ∧
        HandleEvent p now net inspect event =
          (Outcome.returned none,
            counterPublish p now net ++ [Action.inspect event.Id, Action.println c.Config.Image]
              ++ [Action.log LogLevel.debug,
                  Action.goHandleStats event.Id Callback.sendEventStats ChanRef.errorChan])) := by
  by_cases hs : event.Status = str "start"
  · right
    cases hi : inspect event.Id with
    | error err =>
      left
      exact ⟨err, hs, rfl, by simp [HandleEvent, hs, hi, counterPublish]⟩
    | ok c =>
      right
      cases hf : p.pluginConfig.ImageNameFilter c.Config.Image with
      | false =>
        left
        exact ⟨c, hs, rfl, hf, by simp [HandleEvent, hs, hi, hf, counterPublish]⟩
      | true =>
        right
        by_cases hl : 12 ≤ c.Id.length
        · right
          exact ⟨c, hs, rfl, hf, hl, by simp [HandleEvent, hs, hi, hf, sliceTo, hl, counterPublish]⟩
        · left
          exact ⟨c, hs, rfl, hf, Nat.lt_of_not_le hl,
            by simp [HandleEvent, hs, hi, hf, sliceTo, hl, counterPublish]⟩
  · left
    exact ⟨hs, by simp [HandleEvent, hs, counterPublish]⟩

/-! ## `sendEventStats`: the published list -/

/-- C1, refuted as stated: every dial is refused and nobody receives from the
error channel.  The call parks in the send of the first error: of the fifteen
pairs it has built, it has published the first one only. -/
theorem sendEventStats_publishes_first_only :
    (publishAttempts (sendEventStats samplePlugin (str "deadbeef0000") sampleStats sampleTime
        (fun _ => netDown) 0).2).map (fun a => (a.1, a.2.1)) =
      [(str "docker.stats.containers.deadbeef0000.cpu.usage.totalUsage", 100)]
    ∧ publishAttempts (sendEventStats samplePlugin (str "deadbeef0000") sampleStats sampleTime
        (fun _ => netDown) 0).2 ≠
      (statData sampleStats).map (specPoint (str "docker.stats") (str "deadbeef0000") sampleTime)
    ∧ (sendEventStats samplePlugin (str "deadbeef0000") sampleStats sampleTime
        (fun _ => netDown) 0).1 = Exit.blocked := by
  decide

/-- C1, amended: for every container id and snapshot, the (key, value) pairs
that `sendEventStats` builds are the fifteen suffixes of section 4.3 in the
order of that section, each with the snapshot field of the same name; the keys
are the same for every snapshot (and the id plays no part in them); the points
are published in that order, so what has been published is always an initial
segment of the list.  It is the whole list when the call returns, which it does
exactly when every error it has to send finds a receiver; when the call parks
in the send for point `k` (counted from 0), it is the first `k + 1` points. -/
theorem sendEventStats_fixed_list (p : StatsPlugin) (id : GoString) (stats : Stats) (now : Time)
    (nets : Nat → NetOutcome) (ec : Nat) :
    (statData stats).map (fun s => (s.Key, s.Value)) =
        [ (str "cpu.usage.totalUsage", (stats.CpuStats.CpuUsage.TotalUsage : Int)),
          (str "cpu.usage.usageInKernelmode", (stats.CpuStats.CpuUsage.UsageInKernelmode : Int)),
          (str "cpu.usage.usageInUsermode", (stats.CpuStats.CpuUsage.UsageInUsermode : Int)),
          (str "memory.stats.usage", (stats.MemoryStats.Usage : Int)),
          (str "memory.stats.maxUsage", (stats.MemoryStats.MaxUsage : Int)),
          (str "memory.stats.failcnt", (stats.MemoryStats.Failcnt : Int)),
          (str "memory.stats.limit", (stats.MemoryStats.Limit : Int)),
          (str "network.rxBytes", (stats.Network.RxBytes : Int)),
          (str "network.rxPackets", (stats.Network.RxPackets : Int)),
          (str "network.rxErrors", (stats.Network.RxErrors : Int)),
          (str "network.rxDropped", (stats.Network.RxDropped : Int)),
          (str "network.txBytes", (stats.Network.TxBytes : Int)),
          (str "network.txPackets", (stats.Network.TxPackets : Int)),
          (str "network.txErrors", (stats.Network.TxErrors : Int)),
          (str "network.txDropped", (stats.Network.TxDropped : Int)) ]
    ∧ (∀ other : Stats,
        (statData other).map (fun s => s.Key) = (statData stats).map (fun s => s.Key))
    ∧ publishAttempts (sendEventStats p id stats now nets ec).2 <+:
        (statData stats).map (specPoint p.pluginConfig.StatsPrefix id now)
    ∧ ((sendEventStats p id stats now nets ec).1 = Exit.returned →
        publishAttempts (sendEventStats p id stats now nets ec).2 =
          (statData stats).map (specPoint p.pluginConfig.StatsPrefix id now))
    ∧ ((sendEventStats p id stats now nets ec).1 = Exit.returned ↔
        (dialErrs nets 0 15).length ≤ ec)
    ∧ (∀ (k : Nat) (err : GoError), k < 15 → (nets k).dialErr = some err →
        (dialErrs nets 0 k).length = ec →
        publishAttempts (sendEventStats p id stats now nets ec).2 =
          ((statData stats).map (specPoint p.pluginConfig.StatsPrefix id now)).take (k + 1)) := by
  refine ⟨rfl, fun _ => rfl, ?_, ?_, ?_, ?_⟩
  · rw [sendEventStats_eq]
    exact rangeStatData_attempts_initial p _ now nets (statData stats) 0 ec
  · rw [sendEventStats_eq]
    intro h
    exact (rangeStatData_returned p _ now nets (statData stats) 0 ec h).1
  · rw [sendEventStats_eq]
    exact rangeStatData_returned_iff p _ now nets (statData stats) 0 ec
  · intro k err hk hd hlen
    rw [sendEventStats_eq]
    have hd2 : (nets (0 + k)).dialErr = some err := by
      rw [Nat.zero_add]
      exact hd
    exact (rangeStatData_blocked p _ now nets (statData stats) 0 ec k err hk hd2 hlen).2.1

/-- C1 at a concrete call: every dial succeeds, the call returns and the
fifteen points of the sample snapshot have been published in the fixed order. -/
theorem sendEventStats_fixed_list_witness :
    (sendEventStats samplePlugin (str "deadbeef0000") sampleStats sampleTime
        (fun _ => netUp) 0).1 = Exit.returned
    ∧ (publishAttempts (sendEventStats samplePlugin (str "deadbeef0000") sampleStats sampleTime
        (fun _ => netUp) 0).2).map (fun a => (a.1, a.2.1)) =
        [ (str "docker.stats.containers.deadbeef0000.cpu.usage.totalUsage", 100),
          (str "docker.stats.containers.deadbeef0000.cpu.usage.usageInKernelmode", 40),
          (str "docker.stats.containers.deadbeef0000.cpu.usage.usageInUsermode", 60),
          (str "docker.stats.containers.deadbeef0000.memory.stats.usage", 2048),
          (str "docker.stats.containers.deadbeef0000.memory.stats.maxUsage", 4096),
          (str "docker.stats.containers.deadbeef0000.memory.stats.failcnt", 3),
          (str "docker.stats.containers.deadbeef0000.memory.stats.limit", 8192),
          (str "docker.stats.containers.deadbeef0000.network.rxBytes", 11),
          (str "docker.stats.containers.deadbeef0000.network.rxPackets", 12),
          (str "docker.stats.containers.deadbeef0000.network.rxErrors", 13),
          (str "docker.stats.containers.deadbeef0000.network.rxDropped", 14),
          (str "docker.stats.containers.deadbeef0000.network.txBytes", 21),
          (str "docker.stats.containers.deadbeef0000.network.txPackets", 22),
          (str "docker.stats.containers.deadbeef0000.network.txErrors", 23),
          (str "docker.stats.containers.deadbeef0000.network.txDropped", 24) ] := by
  have hret : (sendEventStats samplePlugin (str "deadbeef0000") sampleStats sampleTime
      (fun _ => netUp) 0).1 = Exit.returned := by decide
  refine ⟨hret, ?_⟩
  rw [(sendEventStats_fixed_list samplePlugin (str "deadbeef0000") sampleStats sampleTime
    (fun _ => netUp) 0).2.2.2.1 hret]
  decide

/-- C2, refuted as stated: the list built for the sample snapshot has 15
entries, not 14; a call on which every dial succeeds makes 15 publish attempts;
and a call whose fourth dial is refused while nobody receives from the error
channel stops after 4 publish attempts. -/
theorem statData_length_ne_14 :
    (statData sampleStats).length ≠ 14
    ∧ (statData sampleStats).length = 15
    ∧ (publishAttempts (sendEventStats samplePlugin (str "deadbeef0000") sampleStats sampleTime
        (fun _ => netUp) 0).2).length = 15
    ∧ (publishAttempts (sendEventStats samplePlugin (str "deadbeef0000") sampleStats sampleTime
        oneRefusal 0).2).length = 4 := by
  decide

/-- C2, amended: for every snapshot the list has length 15; a call never makes
more than 15 publish attempts and one that returns has made exactly 15. -/
theorem statData_length_15 (p : StatsPlugin) (id : GoString) (stats : Stats) (now : Time)
    (nets : Nat → NetOutcome) (ec : Nat) :
    (statData stats).length = 15
    ∧ (publishAttempts (sendEventStats p id stats now nets ec).2).length ≤ 15
    ∧ ((sendEventStats p id stats now nets ec).1 = Exit.returned →
        (publishAttempts (sendEventStats p id stats now nets ec).2).length = 15) := by
  refine ⟨rfl, ?_, ?_⟩
  · rw [sendEventStats_eq]
    have h := (rangeStatData_attempts_initial p
      (p.pluginConfig.StatsPrefix ++ str ".containers." ++ specShortId id) now nets
      (statData stats) 0 ec).length_le
    simpa [statData] using h
  · rw [sendEventStats_eq]
    intro h
    rw [(rangeStatData_returned p _ now nets (statData stats) 0 ec h).1]
    simp [statData]

/-- C2 amended, at a concrete call with two refused dials and two receivers:
the call returns and has made 15 publish attempts. -/
theorem statData_length_15_witness :
    (sendEventStats samplePlugin (str "deadbeef0000") sampleStats sampleTime sampleNets 2).1
        = Exit.returned
    ∧ (publishAttempts (sendEventStats samplePlugin (str "deadbeef0000") sampleStats sampleTime
        sampleNets 2).2).length = 15 :=
  ⟨by decide,
   (statData_length_15 samplePlugin (str "deadbeef0000") sampleStats sampleTime
      sampleNets 2).2.2 (by decide)⟩

/-- C8, refuted as stated: the fourth and the tenth dial are refused and the
error channel has one receiver.  The first error is sent; the send of the
second one never completes, the call does not return, and the five points
after the tenth are never attempted. -/
theorem sendEventStats_blocks_on_unreceived_send :
    (sendEventStats samplePlugin (str "deadbeef0000") sampleStats sampleTime sampleNets 1).1
        = Exit.blocked
    ∧ (publishAttempts (sendEventStats samplePlugin (str "deadbeef0000") sampleStats sampleTime
        sampleNets 1).2).length = 10
    ∧ chanSends (sendEventStats samplePlugin (str "deadbeef0000") sampleStats sampleTime
        sampleNets 1).2 = [{ msg := str "dial refused at point 3" }]
    ∧ (sendEventStats samplePlugin (str "deadbeef0000") sampleStats sampleTime
        sampleNets 1).2.getLast? = some (Action.chanBlocked { msg := str "dial refused at point 9" }) := by
  decide

/-- C8, amended: when every send on the error channel completes (there are
at least as many receives as refused dials among the fifteen), the call
returns, it has attempted every point of the list in the fixed order, and it
has sent on the channel exactly the errors returned by the failing `sendStat`
calls, one per failed point, in the order of the points.  Otherwise there is a
failed point `k` (counted from 0) whose error no send can deliver, the one
reached when the errors of the earlier failed points have used up the channel;
the call parks in `ec <- err` for that point and never returns: it has
attempted the points up to `k` and no later one, and it has sent exactly the
errors of the failed points before `k`. -/
theorem sendEventStats_reports_every_failure (p : StatsPlugin) (id : GoString) (stats : Stats)
    (now : Time) (nets : Nat → NetOutcome) (ec : Nat) :
    ((dialErrs nets 0 15).length ≤ ec →
      (sendEventStats p id stats now nets ec).1 = Exit.returned
      ∧ publishAttempts (sendEventStats p id stats now nets ec).2 =
          (statData stats).map (specPoint p.pluginConfig.StatsPrefix id now)
      ∧ chanSends (sendEventStats p id stats now nets ec).2 =
          (List.range 15).filterMap (fun k =>
            (sendStat p (nets k)
              (specPath p.pluginConfig.StatsPrefix id ((statData stats).map (fun s => s.Key))[k]!)
              ((statData stats).map (fun s => s.Value))[k]! now).1))
    ∧ (∀ (k : Nat) (err : GoError), k < 15 → (nets k).dialErr = some err →
        (dialErrs nets 0 k).length = ec →
        (sendEventStats p id stats now nets ec).1 = Exit.blocked
        ∧ publishAttempts (sendEventStats p id stats now nets ec).2 =
            ((statData stats).map (specPoint p.pluginConfig.StatsPrefix id now)).take (k + 1)
        ∧ chanSends (sendEventStats p id stats now nets ec).2 =
            (List.range k).filterMap (fun m =>
              (sendStat p (nets m)
                (specPath p.pluginConfig.StatsPrefix id
                  ((statData stats).map (fun s => s.Key))[m]!)
                ((statData stats).map (fun s => s.Value))[m]! now).1)
        ∧ ∃ before, (sendEventStats p id stats now nets ec).2 =
            before ++ [Action.chanBlocked err])
    ∧ (ec < (dialErrs nets 0 15).length →
        ∃ (k : Nat) (err : GoError), k < 15 ∧ (nets k).dialErr = some err
          ∧ (dialErrs nets 0 k).length = ec)
    ∧ ((sendEventStats p id stats now nets ec).1 = Exit.returned ↔
        (dialErrs nets 0 15).length ≤ ec) := by
  have hlen : (statData stats).length = 15 := rfl
  refine ⟨?_, ?_, ?_, ?_⟩
  · intro h
    have hret : (sendEventStats p id stats now nets ec).1 = Exit.returned := by
      rw [sendEventStats_eq, rangeStatData_returned_iff, hlen]
      exact h
    refine ⟨hret, ?_, ?_⟩
    · rw [sendEventStats_eq] at hret ⊢
      exact (rangeStatData_returned p _ now nets (statData stats) 0 ec hret).1
    · rw [sendEventStats_eq] at hret ⊢
      rw [(rangeStatData_returned p _ now nets (statData stats) 0 ec hret).2, hlen]
      simp only [sendStat_fst, dialErrs, List.range_eq_range']
  · intro k err hk hd hl
    have hd2 : (nets (0 + k)).dialErr = some err := by
      rw [Nat.zero_add]
      exact hd
    have hb := rangeStatData_blocked p
      (p.pluginConfig.StatsPrefix ++ str ".containers." ++ specShortId id) now nets
      (statData stats) 0 ec k err hk hd2 hl
    rw [sendEventStats_eq]
    refine ⟨hb.1, hb.2.1, ?_, hb.2.2.2⟩
    rw [hb.2.2.1]
    simp only [sendStat_fst, dialErrs, List.range_eq_range']
  · intro h
    obtain ⟨j, err, hj, hd, hl⟩ := exists_blocking_point nets 15 0 ec h
    rw [Nat.zero_add] at hd
    exact ⟨j, err, hj, hd, hl⟩
  · rw [sendEventStats_eq]
    exact rangeStatData_returned_iff p _ now nets (statData stats) 0 ec

/-- C8 amended, at concrete calls.  The fourth and the tenth dial are refused
and two receives are available: both errors are sent, in order, and all
fifteen points are attempted.  Only the fourth dial is refused and nobody
receives, as on `errorChan`: the call parks after four attempts, with no
error sent. -/
theorem sendEventStats_reports_every_failure_witness :
    ((dialErrs sampleNets 0 15).length ≤ 2
      ∧ (sendEventStats samplePlugin (str "deadbeef0000") sampleStats sampleTime sampleNets 2).1
          = Exit.returned
      ∧ (publishAttempts (sendEventStats samplePlugin (str "deadbeef0000") sampleStats sampleTime
          sampleNets 2).2).length = 15
      ∧ chanSends (sendEventStats samplePlugin (str "deadbeef0000") sampleStats sampleTime
          sampleNets 2).2 =
          [{ msg := str "dial refused at point 3" }, { msg := str "dial refused at point 9" }])
    ∧ ((oneRefusal 3).dialErr = some { msg := str "dial refused at point 3" }
      ∧ (dialErrs oneRefusal 0 3).length = 0
      ∧ (sendEventStats samplePlugin (str "deadbeef0000") sampleStats sampleTime oneRefusal 0).1
          = Exit.blocked
      ∧ (publishAttempts (sendEventStats samplePlugin (str "deadbeef0000") sampleStats sampleTime
          oneRefusal 0).2).map (fun a => a.1) =
          [ str "docker.stats.containers.deadbeef0000.cpu.usage.totalUsage",
            str "docker.stats.containers.deadbeef0000.cpu.usage.usageInKernelmode",
            str "docker.stats.containers.deadbeef0000.cpu.usage.usageInUsermode",
            str "docker.stats.containers.deadbeef0000.memory.stats.usage" ]
      ∧ chanSends (sendEventStats samplePlugin (str "deadbeef0000") sampleStats sampleTime
          oneRefusal 0).2 = []) :=
  ⟨⟨by decide,
    ((sendEventStats_reports_every_failure samplePlugin (str "deadbeef0000") sampleStats
        sampleTime sampleNets 2).1 (by decide)).1,
    by decide,
    ((sendEventStats_reports_every_failure samplePlugin (str "deadbeef0000") sampleStats
        sampleTime sampleNets 2).1 (by decide)).2.2.trans (by decide)⟩,
   ⟨by decide, by decide,
    ((sendEventStats_reports_every_failure samplePlugin (str "deadbeef0000") sampleStats
        sampleTime oneRefusal 0).2.1 3 { msg := str "dial refused at point 3" }
        (by decide) (by decide) (by decide)).1,
    (congrArg (List.map (fun a => a.1))
      ((sendEventStats_reports_every_failure samplePlugin (str "deadbeef0000") sampleStats
        sampleTime oneRefusal 0).2.1 3 { msg := str "dial refused at point 3" }
        (by decide) (by decide) (by decide)).2.1).trans (by decide),
    ((sendEventStats_reports_every_failure samplePlugin (str "deadbeef0000") sampleStats
        sampleTime oneRefusal 0).2.1 3 { msg := str "dial refused at point 3" }
        (by decide) (by decide) (by decide)).2.2.1.trans (by decide)⟩⟩

/-! ## `sendStat` -/

/-- C4: when the dial succeeds, `sendStat` issues exactly one `Write` on the
connection and its bytes are the path, a space, the value in decimal, a space,
the Unix seconds of the timestamp in signed decimal and a newline; the
connection sees the dial, that one write and the close, nothing else. -/
theorem sendStat_writes_one_line (p : StatsPlugin) (net : NetOutcome) (path : GoString)
    (value : Int) (t : Time) (h : net.dialErr = none) :
    connWrites (sendStat p net path value t).2 =
        [path ++ str " " ++ str (toString value) ++ str " " ++ str (toString t.unix) ++ str "\n"]
    ∧ (connWrites (sendStat p net path value t).2).length = 1
    ∧ (sendStat p net path value t).2 =
        [ Action.sendStatCall path value t, Action.dial p.pluginConfig.CarbonAddress,
          Action.log LogLevel.debug,
          Action.connWrite
            (path ++ str " " ++ str (toString value) ++ str " " ++ str (toString t.unix)
              ++ str "\n")
            net.writeErr,
          Action.connClose ] := by
  have hv := formatInt_eq_toString value
  have ht := formatInt_eq_toString t.unix
  simp [sendStat, h, connWrites, Action.asWrite, hv, ht]

/-- C4 at concrete calls: the counter at a time after the epoch and a negative
value at a time before it. -/
theorem sendStat_writes_one_line_witness :
    netUp.dialErr = none
    ∧ connWrites (sendStat samplePlugin netUp (str "docker.stats.all.events") 1 sampleTime).2 =
        [str "docker.stats.all.events 1 1700000000\n"]
    ∧ connWrites (sendStat samplePlugin netBrokenPipe (str "a.b") (-42) { unix := -7 }).2 =
        [str "a.b -42 -7\n"] :=
  ⟨rfl,
   (sendStat_writes_one_line samplePlugin netUp (str "docker.stats.all.events") 1 sampleTime
      rfl).1.trans (by decide),
   (sendStat_writes_one_line samplePlugin netBrokenPipe (str "a.b") (-42) { unix := -7 }
      rfl).1.trans (by decide)⟩

/-- C5, refuted as stated: the dial succeeds, the write of the line fails with
`broken pipe`, and `sendStat` returns nil. -/
theorem sendStat_write_failure_returns_nil :
    sendStat samplePlugin netBrokenPipe (str "docker.stats.all.events") 1 sampleTime =
      (none,
       [ Action.sendStatCall (str "docker.stats.all.events") 1 sampleTime,
         Action.dial (str "carbon:2003"),
         Action.log LogLevel.debug,
         Action.connWrite (str "docker.stats.all.events 1 1700000000\n")
           (some { msg := str "broken pipe" }),
         Action.connClose ]) := by
  decide

/-- C5, amended: `sendStat` returns a non-nil error exactly when the dial
fails, and the error is then the dial error; it returns nil exactly when the
dial succeeded, whatever the write did. -/
theorem sendStat_error_iff_dial_fails (p : StatsPlugin) (net : NetOutcome) (path : GoString)
    (value : Int) (t : Time) :
    (sendStat p net path value t).1 = net.dialErr
    ∧ (∀ err, (sendStat p net path value t).1 = some err ↔ net.dialErr = some err)
    ∧ ((sendStat p net path value t).1 = none ↔ net.dialErr = none) := by
  rw [sendStat_fst]
  exact ⟨rfl, fun _ => Iff.rfl, Iff.rfl⟩

/-! ## `HandleEvent` -/

/-- The monitors started by one call: one, for `event.Id`, on a `start` event
whose inspection succeeds with an accepted image and an `Id` of at least 12
bytes; none on every other path. -/
theorem HandleEvent_monitorStarts (p : StatsPlugin) (now : Time) (net : NetOutcome)
    (inspect : GoString → Except GoError ContainerInfo) (event : Event) :
    monitorStarts (HandleEvent p now net inspect event).2 =
      (if event.Status = str "start" then
        match inspect event.Id with
        | Except.error _ => []
        | Except.ok c =>
          if p.pluginConfig.ImageNameFilter c.Config.Image = true ∧ 12 ≤ c.Id.length
          then [event.Id] else []
      else []) := by
  rcases HandleEvent_cases p now net inspect event with
    ⟨hs, heq⟩ | ⟨e, hs, hi, heq⟩ | ⟨c, hs, hi, hf, heq⟩ | ⟨c, hs, hi, hf, hl, heq⟩ |
    ⟨c, hs, hi, hf, hl, heq⟩
  · simp [heq, hs, monitorStarts_counterPublish]
  · simp only [heq, hs, hi, monitorStarts_append, monitorStarts_counterPublish]
    rfl
  · simp only [heq, hs, hi, hf, monitorStarts_append, monitorStarts_counterPublish]
    rfl
  · have hl2 : ¬ 12 ≤ c.Id.length := Nat.not_le_of_lt hl
    simp only [heq, hs, hi, hf, hl2, monitorStarts_append, monitorStarts_counterPublish]
    rfl
  · simp only [heq, hs, hi, hf, hl, monitorStarts_append, monitorStarts_counterPublish]
    rfl

/-- C6, the failing input: a `start` event whose inspection succeeds with a
3-byte `Id` and an image that the default filter accepts.  `HandleEvent`
publishes the counter, inspects, prints the image and panics on `c.Id[:12]`:
no monitor is started, where the claim has exactly one. -/
theorem HandleEvent_short_inspected_id :
    HandleEvent samplePlugin sampleTime netUp inspectShortId
        { Id := str "abc", Status := str "start" } =
      (Outcome.panicked,
       [ Action.sendStatCall (str "docker.stats.all.events") 1 sampleTime,
         Action.dial (str "carbon:2003"),
         Action.log LogLevel.debug,
         Action.connWrite (str "docker.stats.all.events 1 1700000000\n") none,
         Action.connClose,
         Action.inspect (str "abc"),
         Action.println (str "nginx") ])
    ∧ monitorStarts (HandleEvent samplePlugin sampleTime netUp inspectShortId
        { Id := str "abc", Status := str "start" }).2 = [] := by
  decide

/-- C7: `HandleEvent` returns the error `err` if and only if the status is
`start` and the inspection fails with `err`; for any other status it returns
nil whatever the counter publish did, and for a `start` event whose image the
filter rejects it returns nil. -/
theorem HandleEvent_error_iff_inspection_fails (p : StatsPlugin) (now : Time) (net : NetOutcome)
    (inspect : GoString → Except GoError ContainerInfo) (event : Event) :
    (∀ err, (HandleEvent p now net inspect event).1 = Outcome.returned (some err) ↔
        (event.Status = str "start" ∧ inspect event.Id = Except.error err))
    ∧ (event.Status ≠ str "start" →
        (HandleEvent p now net inspect event).1 = Outcome.returned none)
    ∧ (∀ c, event.Status = str "start" → inspect event.Id = Except.ok c →
        p.pluginConfig.ImageNameFilter c.Config.Image = false →
        (HandleEvent p now net inspect event).1 = Outcome.returned none) := by
  rcases HandleEvent_cases p now net inspect event with
    ⟨hs, heq⟩ | ⟨e, hs, hi, heq⟩ | ⟨c, hs, hi, hf, heq⟩ | ⟨c, hs, hi, hf, hl, heq⟩ |
    ⟨c, hs, hi, hf, hl, heq⟩
  · simp [heq, hs]
  · refine ⟨?_, ?_, ?_⟩
    · intro err
      simp only [heq, hs, hi, true_and]
      constructor
      · intro h
        injection h with h
        injection h with h
        rw [h]
      · intro h
        injection h with h
        rw [h]
    · intro h
      exact absurd hs h
    · intro c _ hc
      rw [hi] at hc
      cases hc
  · simp [heq, hs, hi]
  · refine ⟨?_, ?_, ?_⟩
    · intro err
      simp [heq, hs, hi]
    · intro h
      exact absurd hs h
    · intro c2 _ hc hf2
      rw [hi] at hc
      injection hc with hc
      subst hc
      rw [hf] at hf2
      cases hf2
  · simp [heq, hs, hi]

/-- C9: for every event, `HandleEvent` calls `sendStat` exactly once itself,
with the path `prefix + ".all.events"` and the value 1; the call comes first,
so every inspection is after it; and a `start` event whose image the filter
rejects has this publish and starts no monitor. -/
theorem HandleEvent_counter_publish (p : StatsPlugin) (now : Time) (net : NetOutcome)
    (inspect : GoString → Except GoError ContainerInfo) (event : Event) :
    publishAttempts (HandleEvent p now net inspect event).2 =
        [(p.pluginConfig.StatsPrefix ++ str ".all.events", 1, now)]
    ∧ (∃ rest, (HandleEvent p now net inspect event).2 =
          (sendStat p net (p.pluginConfig.StatsPrefix ++ str ".all.events") 1 now).2 ++ rest
        ∧ publishAttempts rest = []
        ∧ inspections (sendStat p net (p.pluginConfig.StatsPrefix ++ str ".all.events") 1 now).2
            = [])
    ∧ (∀ c, event.Status = str "start" → inspect event.Id = Except.ok c →
        p.pluginConfig.ImageNameFilter c.Config.Image = false →
        publishAttempts (HandleEvent p now net inspect event).2 =
            [(p.pluginConfig.StatsPrefix ++ str ".all.events", 1, now)]
          ∧ monitorStarts (HandleEvent p now net inspect event).2 = []) := by
  have key : ∀ tail : List Action, publishAttempts tail = [] →
      (HandleEvent p now net inspect event).2 = counterPublish p now net ++ tail →
      publishAttempts (HandleEvent p now net inspect event).2 =
          [(p.pluginConfig.StatsPrefix ++ str ".all.events", 1, now)]
      ∧ (∃ rest, (HandleEvent p now net inspect event).2 =
            (sendStat p net (p.pluginConfig.StatsPrefix ++ str ".all.events") 1 now).2 ++ rest
          ∧ publishAttempts rest = []
          ∧ inspections
              (sendStat p net (p.pluginConfig.StatsPrefix ++ str ".all.events") 1 now).2 = []) := by
    intro tail ht heq
    refine ⟨?_, ?_⟩
    · rw [heq, publishAttempts_append, publishAttempts_counterPublish, ht]
      rfl
    · refine ⟨(match (sendStat p net (p.pluginConfig.StatsPrefix ++ str ".all.events") 1 now).1 with
          | some _ => [Action.log LogLevel.error]
          | none => []) ++ tail, ?_, ?_, inspections_sendStat _ _ _ _ _⟩
      · rw [heq, counterPublish, List.append_assoc]
      · rw [publishAttempts_append, ht]
        cases (sendStat p net (p.pluginConfig.StatsPrefix ++ str ".all.events") 1 now).1 <;>
          simp [publishAttempts, Action.asPublish]
  rcases HandleEvent_cases p now net inspect event with
    ⟨hs, heq⟩ | ⟨e, hs, hi, heq⟩ | ⟨c, hs, hi, hf, heq⟩ | ⟨c, hs, hi, hf, hl, heq⟩ |
    ⟨c, hs, hi, hf, hl, heq⟩
  · have h := key [] rfl (by rw [heq, List.append_nil])
    exact ⟨h.1, h.2, fun c hc => absurd hc hs⟩
  · have h := key [Action.inspect event.Id] rfl (by rw [heq])
    refine ⟨h.1, h.2, ?_⟩
    intro c _ hc
    rw [hi] at hc
    cases hc
  · have h := key [Action.inspect event.Id, Action.println c.Config.Image] rfl (by rw [heq])
    refine ⟨h.1, h.2, ?_⟩
    intro _ _ _ _
    refine ⟨h.1, ?_⟩
    rw [heq, monitorStarts_append, monitorStarts_counterPublish]
    rfl
  · have h := key [Action.inspect event.Id, Action.println c.Config.Image] rfl (by rw [heq])
    refine ⟨h.1, h.2, ?_⟩
    intro c2 _ hc hf2
    rw [hi] at hc
    injection hc with hc
    subst hc
    rw [hf] at hf2
    cases hf2
  · have h := key ([Action.inspect event.Id, Action.println c.Config.Image]
      ++ [Action.log LogLevel.debug,
          Action.goHandleStats event.Id Callback.sendEventStats ChanRef.errorChan]) rfl
      (by rw [heq, List.append_assoc])
    refine ⟨h.1, h.2, ?_⟩
    intro c2 _ hc hf2
    rw [hi] at hc
    injection hc with hc
    subst hc
    rw [hf] at hf2
    cases hf2

/-- C9 at a concrete event: a `start` event for an `nginx` container under a
filter that accepts only `redis`, with the carbon address unreachable.  The
counter publish is attempted and no monitor is started. -/
theorem HandleEvent_counter_publish_witness :
    publishAttempts (HandleEvent redisOnly sampleTime netDown inspectEcho
        { Id := str "deadbeef0000deadbeef", Status := str "start" }).2 =
      [(str "docker.stats.all.events", 1, sampleTime)]
    ∧ monitorStarts (HandleEvent redisOnly sampleTime netDown inspectEcho
        { Id := str "deadbeef0000deadbeef", Status := str "start" }).2 = [] :=
  ((HandleEvent_counter_publish redisOnly sampleTime netDown inspectEcho
      { Id := str "deadbeef0000deadbeef", Status := str "start" }).2.2
    { Id := str "deadbeef0000deadbeef", Image := str "sha256:0", Config := { Image := str "nginx" } }
    rfl rfl (by decide)).imp (fun h => h.trans (by decide)) id

/-- C10: on a `start` event whose inspection succeeds and whose image the
filter accepts, the slice `c.Id[:12]` is in bounds, and `HandleEvent` starts the
monitor for `event.Id` and returns nil, if and only if the inspected `Id` has at
least 12 bytes; with a shorter `Id` it panics and no monitor has been started.
`HandleEvent` panics on no other path, and `sendEventStats`, whose slice is
guarded by `len(id) > 12`, never panics. -/
theorem HandleEvent_unguarded_slice (p : StatsPlugin) (now : Time) (net : NetOutcome)
    (inspect : GoString → Except GoError ContainerInfo) (event : Event) :
    (∀ c, event.Status = str "start" → inspect event.Id = Except.ok c →
        p.pluginConfig.ImageNameFilter c.Config.Image = true →
        ((sliceTo c.Id 12).isSome = true ↔ 12 ≤ c.Id.length)
        ∧ (((HandleEvent p now net inspect event).1 = Outcome.returned none
              ∧ monitorStarts (HandleEvent p now net inspect event).2 = [event.Id])
            ↔ 12 ≤ c.Id.length)
        ∧ (c.Id.length < 12 →
            (HandleEvent p now net inspect event).1 = Outcome.panicked
              ∧ monitorStarts (HandleEvent p now net inspect event).2 = []))
    ∧ ((HandleEvent p now net inspect event).1 = Outcome.panicked ↔
        (event.Status = str "start" ∧ ∃ c, inspect event.Id = Except.ok c ∧
          p.pluginConfig.ImageNameFilter c.Config.Image = true ∧ c.Id.length < 12))
    ∧ (∀ (id : GoString) (stats : Stats) (nets : Nat → NetOutcome) (ec : Nat),
        (sendEventStats p id stats now nets ec).1 ≠ Exit.panicked) := by
  refine ⟨?_, ?_, ?_⟩
  · intro c hs hi hf
    refine ⟨sliceTo_isSome c.Id 12, ?_, ?_⟩
    · rcases HandleEvent_cases p now net inspect event with
        ⟨hs2, _⟩ | ⟨e, _, hi2, _⟩ | ⟨c2, _, hi2, hf2, _⟩ | ⟨c2, _, hi2, hf2, hl, heq⟩ |
        ⟨c2, _, hi2, hf2, hl, heq⟩
      · exact absurd hs hs2
      · rw [hi] at hi2
        cases hi2
      · rw [hi] at hi2
        injection hi2 with hi2
        subst hi2
        rw [hf] at hf2
        cases hf2
      · rw [hi] at hi2
        injection hi2 with hi2
        subst hi2
        constructor
        · intro h
          rw [heq] at h
          cases h.1
        · intro h
          omega
      · rw [hi] at hi2
        injection hi2 with hi2
        subst hi2
        constructor
        · intro _
          exact hl
        · intro _
          rw [heq]
          refine ⟨rfl, ?_⟩
          simp only [monitorStarts_append, monitorStarts_counterPublish]
          rfl
    · intro hlt
      rcases HandleEvent_cases p now net inspect event with
        ⟨hs2, _⟩ | ⟨e, _, hi2, _⟩ | ⟨c2, _, hi2, hf2, _⟩ | ⟨c2, _, hi2, hf2, hl, heq⟩ |
        ⟨c2, _, hi2, hf2, hl, heq⟩
      · exact absurd hs hs2
      · rw [hi] at hi2
        cases hi2
      · rw [hi] at hi2
        injection hi2 with hi2
        subst hi2
        rw [hf] at hf2
        cases hf2
      · rw [heq]
        refine ⟨rfl, ?_⟩
        simp only [monitorStarts_append, monitorStarts_counterPublish]
        rfl
      · rw [hi] at hi2
        injection hi2 with hi2
        subst hi2
        omega
  · rcases HandleEvent_cases p now net inspect event with
      ⟨hs, heq⟩ | ⟨e, hs, hi, heq⟩ | ⟨c, hs, hi, hf, heq⟩ | ⟨c, hs, hi, hf, hl, heq⟩ |
      ⟨c, hs, hi, hf, hl, heq⟩
    · simp [heq, hs]
    · simp [heq, hs, hi]
    · simp [heq, hs, hi, hf]
    · rw [heq]
      exact ⟨fun _ => ⟨hs, c, hi, hf, hl⟩, fun _ => rfl⟩
    · rw [heq]
      constructor
      · intro h
        cases h
      · rintro ⟨_, c2, hi2, _, hl2⟩
        rw [hi] at hi2
        injection hi2 with hi2
        subst hi2
        omega
  · intro id stats nets ec
    rw [sendEventStats_eq]
    exact rangeStatData_not_panicked p _ now nets (statData stats) 0 ec

/-- C10 at concrete events: an inspected `Id` of 12 bytes starts the monitor
and returns nil; an inspected `Id` of 3 bytes panics before any monitor is
started. -/
theorem HandleEvent_unguarded_slice_witness :
    ((HandleEvent samplePlugin sampleTime netUp inspectEcho
          { Id := str "deadbeef0000", Status := str "start" }).1 = Outcome.returned none
      ∧ monitorStarts (HandleEvent samplePlugin sampleTime netUp inspectEcho
          { Id := str "deadbeef0000", Status := str "start" }).2 = [str "deadbeef0000"])
    ∧ ((HandleEvent samplePlugin sampleTime netUp inspectEcho
          { Id := str "abc", Status := str "start" }).1 = Outcome.panicked
      ∧ monitorStarts (HandleEvent samplePlugin sampleTime netUp inspectEcho
          { Id := str "abc", Status := str "start" }).2 = []) :=
  ⟨((HandleEvent_unguarded_slice samplePlugin sampleTime netUp inspectEcho
        { Id := str "deadbeef0000", Status := str "start" }).1
      { Id := str "deadbeef0000", Image := str "sha256:0", Config := { Image := str "nginx" } }
      rfl rfl rfl).2.1.mpr (by decide),
   ((HandleEvent_unguarded_slice samplePlugin sampleTime netUp inspectEcho
        { Id := str "abc", Status := str "start" }).1
      { Id := str "abc", Image := str "sha256:0", Config := { Image := str "nginx" } }
      rfl rfl rfl).2.2 (by decide)⟩

end InterlockStats
